import Mathlib

/-!
Verification of the ColoursFrontend capture pipeline.

This file shallowly embeds the core of the repository:
* `src/utils/zoomUtils.ts` — the magnification constant, the zoomed-frame
  extraction geometry and resource handling, hardware/CSS zoom application,
  and zoom reset;
* the camera-page point-placement logic (`handleImageAreaClick`,
  `handleClearLastPoint`, `handleClearAllPoints`, retake) together with the
  `canAnalyze` validation;
* the analysis service (`sendAnalysisData`): the upload payload built from
  the placed crosshairs and the validation of the server response.

Numbers that the JavaScript source manipulates as IEEE doubles are modelled
as rationals (`ℚ`): every arithmetic expression appearing in the embedded
code (division by the zoom factor, halving, coordinate ratios, clamping) is
carried over term by term.  Stateful browser objects (canvas, media tracks,
CSS style) are modelled by explicit state records, and thrown exceptions by
`Except` / explicit outcome fields.
-/

/- ===================== src/utils/zoomUtils.ts ===================== -/

/-- `export const CAMERA_ZOOM_FACTOR = 2.5;` (zoomUtils.ts line 8). -/
def CAMERA_ZOOM_FACTOR : ℚ := 5 / 2

/-- The geometry computed inside `extractZoomedFrame` (zoomUtils.ts lines
39-52): crop size, centring offset and canvas (output) dimensions.  The
destination rectangle of `drawImage` is `(0, 0, canvasWidth, canvasHeight)`. -/
structure FrameGeometry where
  cropWidth : ℚ
  cropHeight : ℚ
  offsetX : ℚ
  offsetY : ℚ
  canvasWidth : ℚ
  canvasHeight : ℚ
  deriving Repr, DecidableEq

/-- Lines 39-52 of `extractZoomedFrame`, expression by expression:
`cropWidth = videoWidth / CAMERA_ZOOM_FACTOR`,
`cropHeight = videoHeight / CAMERA_ZOOM_FACTOR`,
`offsetX = (videoWidth - cropWidth) / 2`,
`offsetY = (videoHeight - cropHeight) / 2`,
`canvas.width = videoWidth`, `canvas.height = videoHeight`. -/
def extractGeometry (videoWidth videoHeight : ℚ) : FrameGeometry :=
  let cropWidth := videoWidth / CAMERA_ZOOM_FACTOR
  let cropHeight := videoHeight / CAMERA_ZOOM_FACTOR
  let offsetX := (videoWidth - cropWidth) / 2
  let offsetY := (videoHeight - cropHeight) / 2
  { cropWidth := cropWidth
    cropHeight := cropHeight
    offsetX := offsetX
    offsetY := offsetY
    canvasWidth := videoWidth
    canvasHeight := videoHeight }

/-- The two failure modes of `extractZoomedFrame`:
`throw new Error('Failed to get canvas context')` (line 36) and
`reject(new Error('Failed to create blob from canvas'))` (line 76). -/
inductive ExtractError where
  | noContext
  | encodingFailed
  deriving Repr, DecidableEq

/-- The `format` parameter of `extractZoomedFrame`: `'dataURL' | 'blob'`. -/
inductive ImageFormat where
  | dataURL
  | blob
  deriving Repr, DecidableEq

/-- The encoded image returned by `extractZoomedFrame` on success: it is a
pure function of the sampled geometry, the requested format and the JPEG
quality (the actual pixel encoding is opaque to this development). -/
structure EncodedImage where
  geometry : FrameGeometry
  format : ImageFormat
  quality : ℚ
  deriving Repr, DecidableEq

/-- The environment a single `extractZoomedFrame` call runs in: the video
element's native dimensions, whether `canvas.getContext('2d')` yields a
context, and whether `canvas.toBlob` produces a blob. -/
structure ExtractEnv where
  videoWidth : ℚ
  videoHeight : ℚ
  format : ImageFormat
  quality : ℚ
  ctxAvailable : Bool
  blobEncodeOk : Bool
  deriving Repr, DecidableEq

/-- Outcome of one `extractZoomedFrame` call: the returned value or thrown
error, plus whether the canvas created at line 31 was removed before the
call finished. -/
structure ExtractOutcome where
  result : Except ExtractError EncodedImage
  canvasReleased : Bool
  deriving Repr

/-- `extractZoomedFrame` (zoomUtils.ts lines 21-87) path by path:
* no 2d context → `canvas.remove()` then throw (lines 34-37);
* format `'dataURL'` → `canvas.toDataURL` inside `try`, canvas removed by
  the `finally` block (lines 68-69, 83-86);
* format `'blob'` → `canvas.toBlob` resolves the blob or rejects with the
  encoding error; the `finally` block removes the canvas in either case
  (lines 72-86). -/
def extractZoomedFrame (env : ExtractEnv) : ExtractOutcome :=
  if !env.ctxAvailable then
    { result := .error .noContext, canvasReleased := true }
  else
    let g := extractGeometry env.videoWidth env.videoHeight
    match env.format with
    | .dataURL =>
        { result := .ok { geometry := g, format := .dataURL, quality := env.quality }
          canvasReleased := true }
    | .blob =>
        if env.blobEncodeOk then
          { result := .ok { geometry := g, format := .blob, quality := env.quality }
            canvasReleased := true }
        else
          { result := .error .encodingFailed, canvasReleased := true }

/-- The CSS `transform` / `transform-origin` pair of the display surface
(the video element's inline style).  `transform = none` models the cleared
style string `''`; `some f` models `scale(f)`.  The origin is either the
cleared default or `'center'`. -/
inductive TransformOrigin where
  | initial
  | center
  deriving Repr, DecidableEq

/-- Inline style state of the display surface (video element). -/
structure DisplaySurface where
  transform : Option ℚ
  transformOrigin : TransformOrigin
  deriving Repr, DecidableEq

/-- The zoom range reported by `videoTrack.getCapabilities().zoom`
(`{ min: number; max: number }`, zoomUtils.ts lines 217-219). -/
structure ZoomRange where
  min : ℚ
  max : ℚ
  deriving Repr, DecidableEq

/-- One video track of the stream as `applyVideoZoom` observes it: its
reported zoom capability (absent when `getCapabilities()` has no `zoom`
member) and whether `applyConstraints` would reject the zoom constraint. -/
structure VideoTrack where
  zoom : Option ZoomRange
  constraintFails : Bool
  deriving Repr, DecidableEq

/-- `videoTrack.applyConstraints({ advanced: [{ zoom: zoomValue }] })`
(zoomUtils.ts lines 228-230): succeeds or rejects according to the track. -/
def applyConstraints (track : VideoTrack) (zoomValue : ℚ) : Except String ℚ :=
  if track.constraintFails then .error "Failed to apply zoom constraints"
  else .ok zoomValue

/-- Outcome of `applyVideoZoom`: the zoom value requested as a hardware
constraint (if the hardware branch was reached), whether that hardware
request succeeded, and the final display-surface style.  Every code path of
the source returns normally (the constraint attempt sits inside
`try`/`catch`), so the outcome carries no error case. -/
structure ApplyZoomOutcome where
  requested : Option ℚ
  hardwareApplied : Bool
  surface : DisplaySurface
  deriving Repr, DecidableEq

/-- The CSS fallback at zoomUtils.ts lines 243-244:
`videoElement.style.transform = scale(CAMERA_ZOOM_FACTOR)`;
`videoElement.style.transformOrigin = 'center'`. -/
def cssZoomFallback : DisplaySurface :=
  { transform := some CAMERA_ZOOM_FACTOR, transformOrigin := TransformOrigin.center }

/-- `applyVideoZoom(videoElement, stream)` (zoomUtils.ts lines 211-245):
* `stream.getVideoTracks()[0]` absent → return, surface untouched (213);
* `capabilities.zoom && capabilities.zoom.min && capabilities.zoom.max`
  (truthiness: the numbers must be non-zero, line 222) →
  `zoomValue = Math.min(CAMERA_ZOOM_FACTOR, capabilities.zoom.max)` (224),
  then `applyConstraints`; on success return (228-232), on rejection fall
  through to the CSS fallback (233-236);
* otherwise apply the CSS fallback (243-244). -/
def applyVideoZoom (tracks : List VideoTrack) (surface : DisplaySurface) :
    ApplyZoomOutcome :=
  match tracks.head? with
  | none => { requested := none, hardwareApplied := false, surface := surface }
  | some track =>
      match track.zoom with
      | some range =>
          if range.min ≠ 0 ∧ range.max ≠ 0 then
            let zoomValue := Min.min CAMERA_ZOOM_FACTOR range.max
            match applyConstraints track zoomValue with
            | .ok _ =>
                { requested := some zoomValue, hardwareApplied := true
                  surface := surface }
            | .error _ =>
                { requested := some zoomValue, hardwareApplied := false
                  surface := cssZoomFallback }
          else
            { requested := none, hardwareApplied := false, surface := cssZoomFallback }
      | none =>
          { requested := none, hardwareApplied := false, surface := cssZoomFallback }

/-- `resetVideoZoom(videoElement)` (zoomUtils.ts lines 251-256): a `null`
video element is left alone (`if (!videoElement) return`), otherwise both
style fields are cleared to `''`. -/
def resetVideoZoom (videoElement : Option DisplaySurface) : Option DisplaySurface :=
  match videoElement with
  | none => none
  | some _ => some { transform := none, transformOrigin := TransformOrigin.initial }

/-- A media track: `stop()` moves it to the ended (non-live) state and is
itself a no-op on an already ended track. -/
structure MediaStreamTrack where
  live : Bool
  deriving Repr, DecidableEq

/-- `track.stop()`. -/
def MediaStreamTrack.stop (_t : MediaStreamTrack) : MediaStreamTrack :=
  { live := false }

/-- Joint state of the camera resources the release path touches: the
acquired stream's tracks (`none` when no stream was ever acquired) and the
display surface bound to the video element (`none` when the element is
gone). -/
structure CameraState where
  stream : Option (List MediaStreamTrack)
  surface : Option DisplaySurface
  deriving Repr, DecidableEq

/-- The release operation: `stream?.getTracks().forEach((track) =>
track.stop())` (useCameraStream.ts lines 22 and 56 — the optional chaining
makes a missing stream a no-op) followed by `resetVideoZoom` on the display
surface (zoomUtils.ts lines 251-256). -/
def releaseCamera (s : CameraState) : CameraState :=
  { stream := s.stream.map (List.map MediaStreamTrack.stop)
    surface := resetVideoZoom s.surface }

/-- No track of the state is still live. -/
def noActiveTracks (s : CameraState) : Prop :=
  ∀ tracks, s.stream = some tracks → ∀ t ∈ tracks, t.live = false

/-- The display surface carries no visual transform. -/
def noTransform (s : CameraState) : Prop :=
  ∀ surf, s.surface = some surf → surf.transform = none

/- ===================== the camera page (point placement) ===================== -/

/-- `type TestType = 'CREATININE' | 'ALB' | 'ALP' | 'WHITE;'` (types). -/
inductive TestType where
  | CREATININE
  | ALB
  | ALP
  | WHITE
  deriving Repr, DecidableEq

/-- `interface PlacedCrosshair` — id, relative x and y (0 to 1), test type
and 1-based point index. -/
structure PlacedCrosshair where
  id : String
  x : ℚ
  y : ℚ
  testType : TestType
  pointIndex : Nat
  deriving Repr, DecidableEq

/-- `Math.max(0, Math.min(1, r))` — the clamping applied to each raw click
ratio (page lines 104-105). -/
def clamp01 (r : ℚ) : ℚ := Max.max 0 (Min.min 1 r)

/-- The page state consulted by `handleImageAreaClick`'s guards
(lines 98-101): whether an image is captured, whether an analysis request
is in flight, the post-analysis flag, whether the results modal is open,
and the currently selected test type. -/
structure ClickEnv where
  captured : Bool
  isLoadingAnalysis : Bool
  isPostAnalysis : Bool
  showResultsModal : Bool
  currentTestType : TestType
  deriving Repr, DecidableEq

/-- `handleImageAreaClick` (page lines 96-127) over the crosshair list:
* `if (!capturedImageDataUrl || isLoadingAnalysis) return` (98);
* `if (isPostAnalysis && !showResultsModal) return` (101);
* `x`/`y` are the clamped raw ratios (104-105);
* a second WHITE reference point is refused (108-111);
* otherwise the point is appended with `pointIndex = prev.length + 1`
  (114-123).  `rx`/`ry` are the raw ratios
  `(clientX - rect.left) / rect.width` and `(clientY - rect.top) / rect.height`.  -/
def handleImageAreaClick (env : ClickEnv) (rx ry : ℚ) (pointId : String)
    (prev : List PlacedCrosshair) : List PlacedCrosshair :=
  if !env.captured || env.isLoadingAnalysis then prev
  else if env.isPostAnalysis && !env.showResultsModal then prev
  else if env.currentTestType = TestType.WHITE
      && prev.any (fun ch => ch.testType = TestType.WHITE) then prev
  else
    prev ++ [{ id := pointId, x := clamp01 rx, y := clamp01 ry
               testType := env.currentTestType, pointIndex := prev.length + 1 }]

/-- `handleClearLastPoint` (page line 165): `prev.slice(0, -1)`. -/
def handleClearLastPoint (prev : List PlacedCrosshair) : List PlacedCrosshair :=
  prev.dropLast

/-- `handleClearAllPoints` (page line 166): `[]`. -/
def handleClearAllPoints (_prev : List PlacedCrosshair) : List PlacedCrosshair := []

/-- `resetToCaptureState` (retake, page lines 56-65) clears the crosshairs. -/
def resetToCaptureState (_prev : List PlacedCrosshair) : List PlacedCrosshair := []

/-- `whitePointCount` (page line 130). -/
def whitePointCount (l : List PlacedCrosshair) : Nat :=
  (l.filter (fun ch => ch.testType = TestType.WHITE)).length

/-- `analysisPointCount` (page line 131). -/
def analysisPointCount (l : List PlacedCrosshair) : Nat :=
  (l.filter (fun ch => ch.testType ≠ TestType.WHITE)).length

/-- `canAnalyze = whitePointCount === 1 && analysisPointCount > 0`
(page line 132). -/
def canAnalyze (l : List PlacedCrosshair) : Bool :=
  whitePointCount l == 1 && decide (0 < analysisPointCount l)

/-- Crosshair-list states reachable from the empty list by the operations
the page exposes: clicking the image area (in any page state, with any raw
ratios), clear-last, clear-all, and retake.  A fresh capture also resets
the list to `[]`, which coincides with `resetToCaptureState`. -/
inductive ReachableCrosshairs : List PlacedCrosshair → Prop where
  | init : ReachableCrosshairs []
  | click {l} (env : ClickEnv) (rx ry : ℚ) (pointId : String) :
      ReachableCrosshairs l →
      ReachableCrosshairs (handleImageAreaClick env rx ry pointId l)
  | clearLast {l} : ReachableCrosshairs l →
      ReachableCrosshairs (handleClearLastPoint l)
  | clearAll {l} : ReachableCrosshairs l →
      ReachableCrosshairs (handleClearAllPoints l)
  | retake {l} : ReachableCrosshairs l →
      ReachableCrosshairs (resetToCaptureState l)

/- ===================== the analysis service (sendAnalysisData) ===================== -/

/-- One element of the `points.json` payload.  The optional `clientId`
models presence or absence of the JSON key `id` in the serialized object. -/
structure UploadPoint where
  clientId : Option String
  x : ℚ
  y : ℚ
  testType : TestType
  pointIndex : Nat
  deriving Repr, DecidableEq

/-- The element mapping of the current analysis service
(`sendAnalysisData`, service lines 75-81):
`crosshairs.map((ch) => ({ id: ch.id, x: ch.x, y: ch.y, testType:
ch.testType, pointIndex: ch.pointIndex }))` — the client id is kept. -/
def toUploadPoint (ch : PlacedCrosshair) : UploadPoint :=
  { clientId := some ch.id, x := ch.x, y := ch.y
    testType := ch.testType, pointIndex := ch.pointIndex }

/-- The `points.json` array of the current service:
one element per placed crosshair. -/
def pointsPayload (crosshairs : List PlacedCrosshair) : List UploadPoint :=
  crosshairs.map toUploadPoint

/-- The element mapping of the earlier service revision
(`crosshairs.map(({ id, ...rest }) => rest)` — id excluded), kept for
comparison with the revision actually in use. -/
def toUploadPointStripped (ch : PlacedCrosshair) : UploadPoint :=
  { clientId := none, x := ch.x, y := ch.y
    testType := ch.testType, pointIndex := ch.pointIndex }

/-- Untyped JSON leaf values as the response validator sees them; `null`
also stands for an absent field (`typeof undefined` matches no expected
type, exactly like `null`). -/
inductive JsonVal where
  | num (q : ℚ)
  | str (s : String)
  | bool (b : Bool)
  | null
  deriving Repr, DecidableEq

/-- `typeof v === 'number'`. -/
def JsonVal.isNumber : JsonVal → Bool
  | .num _ => true
  | _ => false

/-- `typeof v === 'string'`. -/
def JsonVal.isString : JsonVal → Bool
  | .str _ => true
  | _ => false

/-- One raw element of the server's `results` array, before validation. -/
structure RawResult where
  pointIndex : JsonVal
  test_type : JsonVal
  concentration : JsonVal
  remarks : JsonVal
  deriving Repr, DecidableEq

/-- The per-element filter of `sendAnalysisData` (service lines 122-131):
numeric `pointIndex`, string `test_type`, numeric `concentration`, and
`remarks` a string contained in `['none', 'low', 'normal', 'high']`. -/
def isValidResult (r : RawResult) : Bool :=
  r.pointIndex.isNumber
    && r.test_type.isString
    && r.concentration.isNumber
    && r.remarks.isString
    && (match r.remarks with
        | .str s => decide (s ∈ ["none", "low", "normal", "high"])
        | _ => false)

/-- Response handling of `sendAnalysisData` (service lines 109-137):
* non-ok HTTP status → error (109-112);
* `responseData?.results` missing or not an array (`results = none`) →
  `Invalid response format from server` (117-119);
* otherwise keep only elements passing `isValidResult` (122-131); if none
  remain, `No valid concentration results received from server` (133-135);
* else success with exactly the valid elements (137). -/
def processResponse (ok : Bool) (results : Option (List RawResult)) :
    Except String (List RawResult) :=
  if !ok then .error "Server error"
  else
    match results with
    | none => .error "Invalid response format from server"
    | some rs =>
        let validResults := rs.filter isValidResult
        if validResults.length = 0 then
          .error "No valid concentration results received from server"
        else
          .ok validResults

/- ===================== theorems ===================== -/

/-- C1: for every video source with native width W > 0 and height H > 0,
`extractZoomedFrame` with magnification factor F = 2.5 produces a still
whose output dimensions equal W×H, having sampled exactly the source
rectangle of width W/F and height H/F placed at offset
((W − W/F)/2, (H − H/F)/2), i.e. centred (the crop's midpoint is
(W/2, H/2)); in particular for a 1200×900 source the crop is 480×360 at
offset (360, 270) and the output is 1200×900. -/
theorem extractZoomedFrame_centered_crop (W H : ℚ) (hW : 0 < W) (hH : 0 < H) :
    (extractGeometry W H).canvasWidth = W ∧
    (extractGeometry W H).canvasHeight = H ∧
    (extractGeometry W H).cropWidth = W / CAMERA_ZOOM_FACTOR ∧
    (extractGeometry W H).cropHeight = H / CAMERA_ZOOM_FACTOR ∧
    (extractGeometry W H).offsetX = (W - W / CAMERA_ZOOM_FACTOR) / 2 ∧
    (extractGeometry W H).offsetY = (H - H / CAMERA_ZOOM_FACTOR) / 2 ∧
    (extractGeometry W H).offsetX + (extractGeometry W H).cropWidth / 2 = W / 2 ∧
    (extractGeometry W H).offsetY + (extractGeometry W H).cropHeight / 2 = H / 2 ∧
    extractGeometry 1200 900 =
      { cropWidth := 480, cropHeight := 360, offsetX := 360, offsetY := 270,
        canvasWidth := 1200, canvasHeight := 900 } := by
  refine ⟨rfl, rfl, rfl, rfl, rfl, rfl, ?_, ?_,
    by norm_num [extractGeometry, CAMERA_ZOOM_FACTOR, FrameGeometry.mk.injEq]⟩
  · show (W - W / CAMERA_ZOOM_FACTOR) / 2 + W / CAMERA_ZOOM_FACTOR / 2 = W / 2
    ring
  · show (H - H / CAMERA_ZOOM_FACTOR) / 2 + H / CAMERA_ZOOM_FACTOR / 2 = H / 2
    ring

/-- Witness for C1: the 1200×900 scenario. -/
theorem extractZoomedFrame_centered_crop_witness :
    extractGeometry 1200 900 =
      { cropWidth := 480, cropHeight := 360, offsetX := 360, offsetY := 270,
        canvasWidth := 1200, canvasHeight := 900 } :=
  (extractZoomedFrame_centered_crop 1200 900 (by norm_num) (by norm_num)).2.2.2.2.2.2.2.2

/-- C7: on every exit path of `extractZoomedFrame` — context-creation
failure, encoding failure, and success — the canvas created within the
call is released before the result or error propagates; context-creation
failure and encoding failure are raised as distinct errors; and the call
retains no state between invocations (the outcome is a function of the
call's environment alone, so identical environments yield identical
outcomes). -/
theorem extractZoomedFrame_releases_canvas (env : ExtractEnv) :
    (extractZoomedFrame env).canvasReleased = true ∧
    (env.ctxAvailable = false →
      (extractZoomedFrame env).result = Except.error ExtractError.noContext) ∧
    (env.ctxAvailable = true → env.format = ImageFormat.blob →
      env.blobEncodeOk = false →
      (extractZoomedFrame env).result = Except.error ExtractError.encodingFailed) ∧
    ExtractError.noContext ≠ ExtractError.encodingFailed ∧
    (∀ env₂ : ExtractEnv, env = env₂ →
      extractZoomedFrame env = extractZoomedFrame env₂) := by
  obtain ⟨W, H, fmt, q, ctx, enc⟩ := env
  refine ⟨?_, ?_, ?_, by decide, fun env₂ h => by rw [h]⟩ <;>
    cases ctx <;> cases fmt <;> cases enc <;> simp [extractZoomedFrame]

/-- Witness for C7: with a context but a failing blob encode, the call
reports the encoding failure (and the canvas is released). -/
theorem extractZoomedFrame_releases_canvas_witness :
    (extractZoomedFrame
        { videoWidth := 1200, videoHeight := 900, format := ImageFormat.blob,
          quality := 92/100, ctxAvailable := true, blobEncodeOk := false }).result
      = Except.error ExtractError.encodingFailed ∧
    (extractZoomedFrame
        { videoWidth := 1200, videoHeight := 900, format := ImageFormat.blob,
          quality := 92/100, ctxAvailable := true, blobEncodeOk := false }).canvasReleased
      = true := by
  have h := extractZoomedFrame_releases_canvas
    { videoWidth := 1200, videoHeight := 900, format := ImageFormat.blob,
      quality := 92/100, ctxAvailable := true, blobEncodeOk := false }
  exact ⟨h.2.2.1 rfl rfl rfl, h.1⟩

/-- C4: whenever `applyVideoZoom` is given a stream whose active video
track reports a native zoom capability with a supported range (both bounds
non-zero, which is the code's truthiness test), the hardware zoom value it
requests as a constraint equals the minimum of the configured
magnification factor (2.5) and the track's maximum supported zoom. -/
theorem applyVideoZoom_hardware_value (tracks : List VideoTrack)
    (surface : DisplaySurface) (track : VideoTrack) (range : ZoomRange)
    (htrack : tracks.head? = some track) (hzoom : track.zoom = some range)
    (hmin : range.min ≠ 0) (hmax : range.max ≠ 0) :
    (applyVideoZoom tracks surface).requested
      = some (Min.min CAMERA_ZOOM_FACTOR range.max) := by
  obtain ⟨rest, rfl⟩ : ∃ rest, tracks = track :: rest := by
    cases tracks with
    | nil => simp at htrack
    | cons a l =>
      simp only [List.head?_cons, Option.some.injEq] at htrack
      exact ⟨l, by rw [htrack]⟩
  obtain ⟨z, cf⟩ := track
  have hz : z = some range := hzoom
  subst hz
  cases cf <;>
    simp [applyVideoZoom, applyConstraints, List.head?_cons, hmin, hmax]

/-- Witness for C4: a track with range [1, 10] gets a hardware request of
min(2.5, 10) = 2.5. -/
theorem applyVideoZoom_hardware_value_witness :
    (applyVideoZoom [{ zoom := some { min := 1, max := 10 }, constraintFails := false }]
        { transform := none, transformOrigin := TransformOrigin.initial }).requested
      = some (Min.min CAMERA_ZOOM_FACTOR 10) :=
  applyVideoZoom_hardware_value
    [{ zoom := some { min := 1, max := 10 }, constraintFails := false }]
    { transform := none, transformOrigin := TransformOrigin.initial }
    { zoom := some { min := 1, max := 10 }, constraintFails := false }
    { min := 1, max := 10 } rfl rfl (by norm_num) (by norm_num)

/-- C5: for every capability configuration of the stream's active video
track in which the hardware zoom capability is absent, reports a falsy
bound, or the constraint application fails, `applyVideoZoom` surfaces no
error (in the embedding it is a total function: every such path returns
normally) and leaves the display surface visually scaled by exactly the
configured factor via the CSS transform fallback — transform scale(2.5)
with centre origin. -/
theorem applyVideoZoom_css_fallback (tracks : List VideoTrack)
    (surface : DisplaySurface) (track : VideoTrack)
    (htrack : tracks.head? = some track)
    (hfall : track.zoom = none
      ∨ (∃ range, track.zoom = some range ∧ (range.min = 0 ∨ range.max = 0))
      ∨ track.constraintFails = true) :
    (applyVideoZoom tracks surface).surface = cssZoomFallback ∧
    cssZoomFallback.transform = some CAMERA_ZOOM_FACTOR ∧
    cssZoomFallback.transformOrigin = TransformOrigin.center := by
  refine ⟨?_, rfl, rfl⟩
  obtain ⟨rest, rfl⟩ : ∃ rest, tracks = track :: rest := by
    cases tracks with
    | nil => simp at htrack
    | cons a l =>
      simp only [List.head?_cons, Option.some.injEq] at htrack
      exact ⟨l, by rw [htrack]⟩
  obtain ⟨z, cf⟩ := track
  rcases hfall with hnone | ⟨range, hsome, hbound⟩ | hcf
  · have hz : z = none := hnone
    subst hz
    simp [applyVideoZoom, List.head?_cons]
  · have hz : z = some range := hsome
    subst hz
    have hc : ¬(range.min ≠ 0 ∧ range.max ≠ 0) :=
      fun hcontra => hbound.elim (fun h0 => hcontra.1 h0) (fun h0 => hcontra.2 h0)
    simp only [applyVideoZoom, List.head?_cons]
    rw [if_neg hc]
  · have hc : cf = true := hcf
    subst hc
    cases z with
    | none => simp [applyVideoZoom, List.head?_cons]
    | some range =>
        by_cases h : range.min ≠ 0 ∧ range.max ≠ 0
        · simp [applyVideoZoom, applyConstraints, List.head?_cons, h.1, h.2]
        · simp only [applyVideoZoom, List.head?_cons]
          rw [if_neg h]

/-- Witness for C5: a track with no zoom capability falls back to the CSS
scale(2.5), centre-origin transform. -/
theorem applyVideoZoom_css_fallback_witness :
    (applyVideoZoom [{ zoom := none, constraintFails := false }]
        { transform := none, transformOrigin := TransformOrigin.initial }).surface
      = cssZoomFallback :=
  (applyVideoZoom_css_fallback
    [{ zoom := none, constraintFails := false }]
    { transform := none, transformOrigin := TransformOrigin.initial }
    { zoom := none, constraintFails := false } rfl (Or.inl rfl)).1

/-- C8: the release operation (track stopping plus `resetVideoZoom`) is
idempotent and total: invoking it twice in succession, or invoking it when
no stream was ever acquired and no transform was ever applied, never
throws (it is a total function on every camera state, including the
never-acquired state), leaves no active tracks, and leaves the display
surface with no visual transform — the state after two calls equals the
state after one. -/
theorem releaseCamera_idempotent (s : CameraState) :
    releaseCamera (releaseCamera s) = releaseCamera s ∧
    noActiveTracks (releaseCamera s) ∧
    noTransform (releaseCamera s) ∧
    releaseCamera { stream := none, surface := none }
      = { stream := none, surface := none } := by
  obtain ⟨st, surf⟩ := s
  refine ⟨?_, ?_, ?_, rfl⟩
  · cases st with
    | none =>
        cases surf with
        | none => rfl
        | some v => rfl
    | some tracks =>
        cases surf with
        | none =>
            show CameraState.mk (some ((tracks.map MediaStreamTrack.stop).map
              MediaStreamTrack.stop)) _ = _
            rw [List.map_map]
            rfl
        | some v =>
            show CameraState.mk (some ((tracks.map MediaStreamTrack.stop).map
              MediaStreamTrack.stop)) _ = _
            rw [List.map_map]
            rfl
  · intro tr htr t ht
    cases st with
    | none => simp [releaseCamera] at htr
    | some tracks =>
        simp only [releaseCamera, Option.map_some] at htr
        cases htr
        obtain ⟨x, _, rfl⟩ := List.mem_map.mp (by simpa using ht)
        rfl
  · intro v hv
    cases surf with
    | none => simp [releaseCamera, resetVideoZoom] at hv
    | some v₀ =>
        simp only [releaseCamera, resetVideoZoom] at hv
        cases hv
        rfl

/-- Witness for C8: releasing a state with one live track and a scaled
surface twice gives the same state as releasing it once. -/
theorem releaseCamera_idempotent_witness :
    releaseCamera (releaseCamera
      { stream := some [{ live := true }],
        surface := some { transform := some CAMERA_ZOOM_FACTOR,
                          transformOrigin := TransformOrigin.center } })
    = releaseCamera
      { stream := some [{ live := true }],
        surface := some { transform := some CAMERA_ZOOM_FACTOR,
                          transformOrigin := TransformOrigin.center } } :=
  (releaseCamera_idempotent
    { stream := some [{ live := true }],
      surface := some { transform := some CAMERA_ZOOM_FACTOR,
                        transformOrigin := TransformOrigin.center } }).1

/-- The clamp keeps every raw ratio inside the unit interval. -/
theorem clamp01_bounds (r : ℚ) : 0 ≤ clamp01 r ∧ clamp01 r ≤ 1 := by
  unfold clamp01
  constructor
  · exact le_max_left 0 _
  · exact max_le (by norm_num) (min_le_left 1 r)

/-- C6: for every click event on the captured image area, including events
whose raw coordinate ratio falls outside [0,1], the placed point created
by `handleImageAreaClick` has both its x and y coordinates clamped into
[0,1] at creation time; and out-of-range clicks are never rejected for
being out of range — whether a point is added does not depend on the raw
ratios (the produced list has the same length whatever the ratios are). -/
theorem handleImageAreaClick_clamps (env : ClickEnv) (rx ry rx₂ ry₂ : ℚ)
    (pointId : String) (prev : List PlacedCrosshair) :
    (∀ p ∈ (handleImageAreaClick env rx ry pointId prev).drop prev.length,
        0 ≤ p.x ∧ p.x ≤ 1 ∧ 0 ≤ p.y ∧ p.y ≤ 1) ∧
    (handleImageAreaClick env rx ry pointId prev).length
      = (handleImageAreaClick env rx₂ ry₂ pointId prev).length := by
  have hcases : ∀ (a b : ℚ),
      handleImageAreaClick env a b pointId prev = prev ∨
      handleImageAreaClick env a b pointId prev =
        prev ++ [{ id := pointId, x := clamp01 a, y := clamp01 b,
                   testType := env.currentTestType, pointIndex := prev.length + 1 }] := by
    intro a b
    unfold handleImageAreaClick
    split
    · exact Or.inl rfl
    · split
      · exact Or.inl rfl
      · split
        · exact Or.inl rfl
        · exact Or.inr rfl
  constructor
  · intro p hp
    rcases hcases rx ry with h | h
    · rw [h, List.drop_length] at hp
      cases hp
    · rw [h, List.drop_left] at hp
      have hpt := List.mem_singleton.mp hp
      subst hpt
      exact ⟨(clamp01_bounds rx).1, (clamp01_bounds rx).2,
        (clamp01_bounds ry).1, (clamp01_bounds ry).2⟩
  · unfold handleImageAreaClick
    split
    · rfl
    · split
      · rfl
      · split
        · rfl
        · simp

/-- Witness for C6: a click at raw ratio (3/2, −1/4) — outside [0,1]² —
still creates a point, and its coordinates are the clamped values. -/
theorem handleImageAreaClick_clamps_witness :
    0 ≤ clamp01 (3/2) ∧ clamp01 (3/2) ≤ 1 ∧
    0 ≤ clamp01 (-1/4) ∧ clamp01 (-1/4) ≤ 1 :=
  (handleImageAreaClick_clamps
    { captured := true, isLoadingAnalysis := false, isPostAnalysis := false,
      showResultsModal := false, currentTestType := TestType.ALB }
    (3/2) (-1/4) 0 0 "p1" []).1
    { id := "p1", x := clamp01 (3/2), y := clamp01 (-1/4),
      testType := TestType.ALB, pointIndex := 1 }
    (by simp [handleImageAreaClick])

/-- Appending one point adds its test type to the white-point count. -/
theorem whitePointCount_append (l : List PlacedCrosshair) (pt : PlacedCrosshair) :
    whitePointCount (l ++ [pt])
      = whitePointCount l + (if pt.testType = TestType.WHITE then 1 else 0) := by
  unfold whitePointCount
  rw [List.filter_append, List.length_append]
  split
  · rename_i hw
    simp [List.filter, hw]
  · rename_i hw
    simp [List.filter, hw]

/-- If no element of the list is WHITE, the white-point count is zero. -/
theorem whitePointCount_eq_zero (l : List PlacedCrosshair)
    (h : l.any (fun ch => ch.testType = TestType.WHITE) = false) :
    whitePointCount l = 0 := by
  unfold whitePointCount
  rw [List.length_eq_zero, List.filter_eq_nil_iff]
  intro a ha
  have := List.any_eq_false.mp h a ha
  simpa using this

/-- C9: in every state of the point list reachable by place-point,
clear-last, clear-all and retake, at most one placed point has the
calibration category WHITE; `handleImageAreaClick` rejects placement of a
second WHITE point (it returns the list unchanged); and `canAnalyze`
enables submission exactly when the list contains one WHITE point together
with at least one non-WHITE analysis point. -/
theorem reachable_at_most_one_white (l : List PlacedCrosshair)
    (h : ReachableCrosshairs l) :
    whitePointCount l ≤ 1 ∧
    (∀ env rx ry pointId, env.currentTestType = TestType.WHITE →
        l.any (fun ch => ch.testType = TestType.WHITE) = true →
        handleImageAreaClick env rx ry pointId l = l) ∧
    (canAnalyze l = true ↔ whitePointCount l = 1 ∧ 0 < analysisPointCount l) := by
  refine ⟨?_, ?_, ?_⟩
  · induction h with
    | init => simp [whitePointCount]
    | click env rx ry pointId hprev ih =>
        rename_i l₀
        unfold handleImageAreaClick
        split
        · exact ih
        · split
          · exact ih
          · split
            · exact ih
            · rename_i hc
              rw [whitePointCount_append]
              by_cases htt : env.currentTestType = TestType.WHITE
              · have hany : l₀.any (fun ch => ch.testType = TestType.WHITE) = false := by
                  cases hval : l₀.any (fun ch => ch.testType = TestType.WHITE) with
                  | false => rfl
                  | true => exact absurd (by simp [htt, hval]) hc
                have h0 := whitePointCount_eq_zero l₀ hany
                simp [h0, htt]
              · simpa [htt] using ih
    | clearLast hprev ih =>
        rename_i l₀
        refine le_trans ?_ ih
        exact List.Sublist.length_le (List.Sublist.filter _ (List.dropLast_sublist l₀))
    | clearAll hprev ih => simp [whitePointCount, handleClearAllPoints]
    | retake hprev ih => simp [whitePointCount, resetToCaptureState]
  · intro env rx ry pointId htt hany
    unfold handleImageAreaClick
    split
    · rfl
    · split
      · rfl
      · split
        · rfl
        · rename_i hc
          exact absurd (by simp [htt, hany]) hc
  · unfold canAnalyze
    rw [Bool.and_eq_true, beq_iff_eq, decide_eq_true_eq]

/-- Witness for C9: after placing a WHITE point and then attempting a
second WHITE placement (which is rejected), the reachable state still has
at most one WHITE point. -/
theorem reachable_at_most_one_white_witness :
    whitePointCount
      (handleImageAreaClick
        { captured := true, isLoadingAnalysis := false, isPostAnalysis := false,
          showResultsModal := false, currentTestType := TestType.WHITE }
        (1/4) (1/4) "w2"
        (handleImageAreaClick
          { captured := true, isLoadingAnalysis := false, isPostAnalysis := false,
            showResultsModal := false, currentTestType := TestType.WHITE }
          (1/2) (1/2) "w1" [])) ≤ 1 :=
  (reachable_at_most_one_white _
    (ReachableCrosshairs.click _ _ _ _
      (ReachableCrosshairs.click _ _ _ _ ReachableCrosshairs.init))).1

/-- Dropping the last element of an arithmetic index run shortens it by one. -/
theorem dropLast_range' (s n : Nat) :
    (List.range' s n).dropLast = List.range' s (n - 1) := by
  cases n with
  | zero => rfl
  | succ m => rw [List.range'_concat, List.dropLast_concat, Nat.succ_sub_one]

/-- C10: in every state of the point list reachable by place-point,
clear-last, clear-all and retake, the pointIndex of the k-th point
(1-based, in placement order) equals k — the indices read 1, 2, …, length
in order, because each new point receives index length + 1, clear-last
removes only the final (highest-indexed) point, and no operation removes a
point from the middle or renumbers existing points. -/
theorem reachable_pointIndex_contiguous (l : List PlacedCrosshair)
    (h : ReachableCrosshairs l) :
    l.map (fun ch => ch.pointIndex) = List.range' 1 l.length ∧
    ∀ (i : Nat) (hi : i < l.length), (l.get ⟨i, hi⟩).pointIndex = i + 1 := by
  have hmap : l.map (fun ch => ch.pointIndex) = List.range' 1 l.length := by
    induction h with
    | init => rfl
    | click env rx ry pointId hprev ih =>
        rename_i l₀
        unfold handleImageAreaClick
        split
        · exact ih
        · split
          · exact ih
          · split
            · exact ih
            · simp only [List.map_append, List.length_append, List.map_cons,
                List.map_nil, List.length_cons, List.length_nil]
              rw [ih, List.range'_concat]
              simp [Nat.add_comm]
    | clearLast hprev ih =>
        rename_i l₀
        unfold handleClearLastPoint
        rw [List.map_dropLast, ih, dropLast_range', List.length_dropLast]
    | clearAll hprev ih => rfl
    | retake hprev ih => rfl
  refine ⟨hmap, ?_⟩
  intro i hi
  have h2 := congrArg (fun t : List Nat => t[i]?) hmap
  simp only [List.getElem?_map] at h2
  rw [List.getElem?_eq_getElem hi,
    List.getElem?_eq_getElem (by simpa using hi)] at h2
  have h3 := Option.some.inj h2
  rw [List.getElem_range'] at h3
  simpa [Nat.add_comm] using h3

/-- Witness for C10: place two analysis points then clear the last; the
remaining point still carries index 1 and the indices form the run 1..n. -/
theorem reachable_pointIndex_contiguous_witness :
    (handleClearLastPoint
      (handleImageAreaClick
        { captured := true, isLoadingAnalysis := false, isPostAnalysis := false,
          showResultsModal := false, currentTestType := TestType.ALB }
        (1/4) (1/4) "a2"
        (handleImageAreaClick
          { captured := true, isLoadingAnalysis := false, isPostAnalysis := false,
            showResultsModal := false, currentTestType := TestType.ALB }
          (1/2) (1/2) "a1" []))).map (fun ch => ch.pointIndex)
    = List.range' 1
        (handleClearLastPoint
          (handleImageAreaClick
            { captured := true, isLoadingAnalysis := false, isPostAnalysis := false,
              showResultsModal := false, currentTestType := TestType.ALB }
            (1/4) (1/4) "a2"
            (handleImageAreaClick
              { captured := true, isLoadingAnalysis := false, isPostAnalysis := false,
                showResultsModal := false, currentTestType := TestType.ALB }
              (1/2) (1/2) "a1" []))).length :=
  (reachable_pointIndex_contiguous _
    (ReachableCrosshairs.clearLast
      (ReachableCrosshairs.click _ _ _ _
        (ReachableCrosshairs.click _ _ _ _ ReachableCrosshairs.init)))).1

/-- C2 counterexample: the claim says the client-only id field is stripped
before submission, but the service in use keeps it — for the concrete point
list [( id p1, x 1/2, y 1/3, ALB, index 1 )] the submitted element carries
the id. -/
theorem pointsPayload_id_not_stripped :
    ¬ (∀ p ∈ pointsPayload
        [{ id := "p1", x := 1/2, y := 1/3, testType := TestType.ALB,
           pointIndex := 1 }], p.clientId = none) := by
  intro h
  have := h (toUploadPoint
    { id := "p1", x := 1/2, y := 1/3, testType := TestType.ALB, pointIndex := 1 })
    (by simp [pointsPayload])
  simp [toUploadPoint] at this

/-- C2 amended: for every list of placed points, the points.json array
submitted by `sendAnalysisData` has one element per point, and each
element carries the fields x, y, testType and pointIndex with values
identical to those of the placed point (x and y pass through unchanged,
with no further transform), together with the client id, which is
preserved — not stripped — for result correlation. -/
theorem pointsPayload_fields (crosshairs : List PlacedCrosshair) :
    (pointsPayload crosshairs).length = crosshairs.length ∧
    ∀ (i : Nat) (ch : PlacedCrosshair), crosshairs[i]? = some ch →
      ∃ p, (pointsPayload crosshairs)[i]? = some p ∧
        p.x = ch.x ∧ p.y = ch.y ∧ p.testType = ch.testType ∧
        p.pointIndex = ch.pointIndex ∧ p.clientId = some ch.id := by
  constructor
  · simp [pointsPayload]
  · intro i ch hch
    refine ⟨toUploadPoint ch, ?_, rfl, rfl, rfl, rfl, rfl⟩
    unfold pointsPayload
    rw [List.getElem?_map, hch]
    rfl

/-- Witness for C2 (amended): the single submitted element for the point
( id p1, x 1/2, y 1/3, ALB, index 1 ) echoes every field and keeps the id. -/
theorem pointsPayload_fields_witness :
    ∃ p, (pointsPayload
        [{ id := "p1", x := 1/2, y := 1/3, testType := TestType.ALB,
           pointIndex := 1 }])[0]? = some p ∧
      p.x = 1/2 ∧ p.y = 1/3 ∧ p.testType = TestType.ALB ∧
      p.pointIndex = 1 ∧ p.clientId = some "p1" :=
  (pointsPayload_fields
    [{ id := "p1", x := 1/2, y := 1/3, testType := TestType.ALB,
       pointIndex := 1 }]).2 0
    { id := "p1", x := 1/2, y := 1/3, testType := TestType.ALB, pointIndex := 1 }
    rfl

/-- C3: for every server response, `sendAnalysisData` returns success only
when the response body contains a non-empty, well-typed results array:
every returned element individually passes the field-type validation
(numeric pointIndex, string test_type, numeric concentration, remarks in
the enumerated set), the returned elements are exactly the valid ones —
invalid elements are dropped — and a response whose elements are all
invalid (zero valid elements) is reported as a failure even when the HTTP
status indicates success. -/
theorem processResponse_valid_results (ok : Bool) (results : Option (List RawResult)) :
    (∀ rs, processResponse ok results = Except.ok rs →
      ok = true ∧ ∃ arr, results = some arr ∧ rs = arr.filter isValidResult ∧
        rs ≠ [] ∧ ∀ r ∈ rs, isValidResult r = true) ∧
    (∀ arr, results = some arr → (arr.filter isValidResult).length = 0 →
      ∃ msg, processResponse ok results = Except.error msg) := by
  constructor
  · intro rs hrs
    unfold processResponse at hrs
    cases ok with
    | false => simp at hrs
    | true =>
        simp only [Bool.not_true, Bool.false_eq_true, if_false] at hrs
        cases results with
        | none => simp at hrs
        | some arr =>
            simp only at hrs
            by_cases hz : (arr.filter isValidResult).length = 0
            · rw [if_pos hz] at hrs
              exact absurd hrs (by simp)
            · rw [if_neg hz] at hrs
              have heq : arr.filter isValidResult = rs := Except.ok.inj hrs
              refine ⟨rfl, arr, rfl, heq.symm, ?_, ?_⟩
              · intro hnil
                rw [← heq] at hnil
                rw [hnil] at hz
                exact hz rfl
              · intro r hr
                rw [← heq] at hr
                exact List.of_mem_filter hr
  · intro arr harr hz
    subst harr
    unfold processResponse
    cases ok with
    | false => exact ⟨"Server error", rfl⟩
    | true =>
        refine ⟨"No valid concentration results received from server", ?_⟩
        simp only [Bool.not_true, Bool.false_eq_true, if_false]
        rw [if_pos hz]

/-- Witness for C3: an HTTP-success response whose only element fails the
remarks validation yields an error, not success. -/
theorem processResponse_valid_results_witness :
    ∃ msg, processResponse true
      (some [{ pointIndex := JsonVal.num 2, test_type := JsonVal.str "ALP",
               concentration := JsonVal.str "oops",
               remarks := JsonVal.str "weird" }]) = Except.error msg :=
  (processResponse_valid_results true
    (some [{ pointIndex := JsonVal.num 2, test_type := JsonVal.str "ALP",
             concentration := JsonVal.str "oops",
             remarks := JsonVal.str "weird" }])).2
    [{ pointIndex := JsonVal.num 2, test_type := JsonVal.str "ALP",
       concentration := JsonVal.str "oops",
       remarks := JsonVal.str "weird" }] rfl (by decide)



